import Mathlib

/-!
Shallow embedding of the foodgram-project-react backend
(`backend/api/views.py`, `backend/api/serializers.py`,
`backend/recipes/models.py`, `backend/users/models.py`).

Machine integers are modelled as `Int` (amounts, cooking times) and `Nat`
(primary keys); database tables are lists of rows; fallible Python code
returns `Except`.
-/

namespace Foodgram

/-- Model of `recipes.models.Ingredient`: catalog row with `name` and
`measurement_unit`; the catalog has a unique constraint on the
(name, measurement_unit) pair. -/
structure Ingredient where
  id : Nat
  name : String
  measurement_unit : String
deriving DecidableEq, Repr

/-- Model of `recipes.models.RecipeIngredients`: join row
(recipe FK, ingredient FK, amount). -/
structure RecipeIngredientRow where
  recipe : Nat
  ingredient : Nat
  amount : Int
deriving DecidableEq, Repr

/-- The persisted store: one list per table.  Recipes are reduced to their
primary keys; `favorite`, `shoppingcart` and `subscriptions` are
(user, recipe) / (user, author) pair sets, `recipe_tags` the
recipe-tag many-to-many pairs. -/
structure Db where
  users : List Nat
  recipes : List Nat
  ingredients : List Ingredient
  recipeingredients : List RecipeIngredientRow
  recipe_tags : List (Nat × Nat)
  favorite : List (Nat × Nat)
  shoppingcart : List (Nat × Nat)
  subscriptions : List (Nat × Nat)
deriving DecidableEq, Repr

/-- Python exception kinds reachable in the embedded code. -/
inductive PyErr
  | typeError
  | attributeError
deriving DecidableEq, Repr

/- ----------------------------------------------------------------- -/
/- Shopping-list export: `RecipeViewSet.download_shopping_cart`
   (`backend/api/views.py` lines 166-195).                            -/
/- ----------------------------------------------------------------- -/

/-- Catalog lookup of an ingredient row by primary key (foreign-key join). -/
def ingredientById (db : Db) (i : Nat) : Ingredient :=
  (db.ingredients.find? (fun g => g.id = i)).getD ⟨i, "", ""⟩

/-- The queryset
`RecipeIngredients.objects.filter(recipe__shoppingcart__user=user)
 .values_list("ingredient__name", "ingredient__measurement_unit", "amount")`:
every RecipeIngredient row whose recipe is in the user's cart, projected to
(name, measurement_unit, amount) tuples. -/
def cartRows (db : Db) (user : Nat) : List (String × String × Int) :=
  (db.recipeingredients.filter
      (fun ri => decide ((user, ri.recipe) ∈ db.shoppingcart))).map
    (fun ri => ((ingredientById db ri.ingredient).name,
                (ingredientById db ri.ingredient).measurement_unit,
                ri.amount))

/-- One step of the aggregation loop over `shopping_result` (a dict keyed by
`name` alone, insertion-ordered): if the name is already a key, add the
amount to the stored entry (keeping the first-seen measurement unit),
otherwise append a new entry. -/
def shoppingResultStep (acc : List (String × String × Int))
    (row : String × String × Int) : List (String × String × Int) :=
  if acc.any (fun e => e.1 = row.1) then
    acc.map (fun e => if e.1 = row.1 then (e.1, e.2.1, e.2.2 + row.2.2) else e)
  else
    acc ++ [row]

/-- The `shopping_result` dict after the whole loop. -/
def shopping_result (rows : List (String × String × Int)) :
    List (String × String × Int) :=
  rows.foldl shoppingResultStep []

/-- Python's `str.capitalize()`: first character upper-cased, the rest
lower-cased. -/
def pyCapitalize (s : String) : String :=
  match s.data with
  | [] => ""
  | c :: rest => String.mk (c.toUpper :: rest.map Char.toLower)

/-- The rendering loop: `"{i}. {name.capitalize()}: {amount} {unit}\n"`,
1-indexed over the aggregated entries. -/
def renderShoppingList (entries : List (String × String × Int)) : String :=
  String.join (entries.enum.map
    (fun p =>
      s!"{p.1 + 1}. {pyCapitalize p.2.1}: {p.2.2.2} {p.2.2.1}\n"))

/-- An `HttpResponse` as built by `download_shopping_cart`. -/
structure HttpResp where
  body : String
  content_type : String
  content_disposition : String
  status : Nat
deriving DecidableEq, Repr

/-- Model of `RecipeViewSet.download_shopping_cart`: aggregate the cart rows, render
the text, and answer 200 with `text/plain` and the attachment header. -/
def download_shopping_cart (db : Db) (user : Nat) : HttpResp :=
  { body := renderShoppingList (shopping_result (cartRows db user))
    content_type := "text/plain"
    content_disposition := "attachment; filename=Список_покупок.txt"
    status := 200 }

/- ----------------------------------------------------------------- -/
/- Annotated recipe listing: `RecipeViewSet.get_queryset` and
   `RecipeSerializer.get_is_favorited` / `get_is_in_shopping_cart`
   (`backend/api/views.py` 119-140, `backend/api/serializers.py`
   157-208).                                                          -/
/- ----------------------------------------------------------------- -/

/-- A `Recipe` instance as produced by the viewset's queryset.  For an
authenticated viewer the queryset annotates each instance with boolean
attributes `is_favorited` / `is_in_shopping_cart` (`Case/When` on the
viewer's rows); for an anonymous viewer no annotation is added
(`none`).  The `Recipe` model itself defines no method of either name. -/
structure AnnotatedRecipe where
  id : Nat
  is_favorited_attr : Option Bool
  is_in_shopping_cart_attr : Option Bool
deriving DecidableEq, Repr

/-- Model of `RecipeViewSet.get_queryset`: annotate when the viewer is
authenticated (`some u`), plain queryset otherwise. -/
def get_queryset (viewer : Option Nat) (db : Db) : List AnnotatedRecipe :=
  db.recipes.map (fun r =>
    match viewer with
    | some u =>
        ⟨r, some (decide ((u, r) ∈ db.favorite)),
            some (decide ((u, r) ∈ db.shoppingcart))⟩
    | none => ⟨r, none, none⟩)

/-- Model of `RecipeSerializer.get_is_favorited`: the `user_authentication_required`
decorator returns `False` for an anonymous viewer; otherwise the method
evaluates `obj.is_favorited(user)`.  Attribute lookup finds the annotated
boolean (set by the queryset) — calling a `bool` raises `TypeError`; with
no annotation the `Recipe` class has no such attribute at all, so lookup
raises `AttributeError`. -/
def get_is_favorited (viewer : Option Nat) (obj : AnnotatedRecipe) :
    Except PyErr Bool :=
  match viewer with
  | none => .ok false
  | some _ =>
      match obj.is_favorited_attr with
      | some _ => .error .typeError
      | none => .error .attributeError

/-- Model of `RecipeSerializer.get_is_in_shopping_cart`: same shape as
`get_is_favorited` over the `shoppingcart` annotation. -/
def get_is_in_shopping_cart (viewer : Option Nat) (obj : AnnotatedRecipe) :
    Except PyErr Bool :=
  match viewer with
  | none => .ok false
  | some _ =>
      match obj.is_in_shopping_cart_attr with
      | some _ => .error .typeError
      | none => .error .attributeError

/- ----------------------------------------------------------------- -/
/- Subscription service: `CustomUserViewSet.subscribe` /
   `delete_subscribe` (`backend/api/views.py` 49-90).                 -/
/- ----------------------------------------------------------------- -/

/-- Outcome of a subscribe call. -/
inductive SubscribeOutcome
  | notFound
  | selfError
  | conflict
  | created
deriving DecidableEq, Repr

/-- Model of `CustomUserViewSet.subscribe`: 404 when the author id does not exist,
400 when the author is the caller, 400 when `get_or_create` finds an
existing (user, author) row, otherwise create the row and answer 201. -/
def subscribe (db : Db) (user authorId : Nat) : SubscribeOutcome × Db :=
  if authorId ∈ db.users then
    if authorId = user then (.selfError, db)
    else if (user, authorId) ∈ db.subscriptions then (.conflict, db)
    else (.created,
          { db with subscriptions := db.subscriptions ++ [(user, authorId)] })
  else (.notFound, db)

/-- Model of `CustomUserViewSet.delete_subscribe`: 404 when the author id does not
exist, 400 (`"Вы не были подписаны"`) when no (user, author) row exists,
otherwise delete the matching rows and answer 204.  The first component is
the HTTP status code. -/
def delete_subscribe (db : Db) (user authorId : Nat) : Nat × Db :=
  if authorId ∈ db.users then
    if (db.subscriptions.filter (fun s => s = (user, authorId))).isEmpty then
      (400, db)
    else
      (204, { db with subscriptions :=
                db.subscriptions.filter (fun s => ¬ s = (user, authorId)) })
  else (404, db)

/- ----------------------------------------------------------------- -/
/- Recipe mutation: `RecipeCreateSerializer` validation and create
   (`backend/api/serializers.py` 211-293).                            -/
/- ----------------------------------------------------------------- -/

/-- One raw ingredient entry of the submitted payload; `none` marks an
absent key.  (Payload values that are not integer-shaped at all are
rejected by the DRF field layer before any code of this repository runs,
so they are not modelled.) -/
structure RawIngredientEntry where
  id : Option Nat
  amount : Option Int
deriving DecidableEq, Repr

/-- The raw recipe-write payload (`initial_data`). -/
structure Payload where
  tags : List Nat
  ingredients : List RawIngredientEntry
  image : Option String
  name : String
  text : String
  cooking_time : Option Int
deriving DecidableEq, Repr

/-- Validation failures, one constructor per distinct rejection site.
All constructors but the last model DRF `ValidationError`s;
`internalTypeError` models the Python `TypeError` that `int(None)` in
`RecipeCreateSerializer.validate` would raise — an unhandled crash, not a
validation error. -/
inductive VErr
  | fieldRequired (f : String)
  | invalidPk
  | minValue
  | maxValue
  | blankField (f : String)
  | missingField (f : String)
  | needAmountAndId
  | amountNotPositive
  | duplicateIngredient
  | internalTypeError
deriving DecidableEq, Repr

/-- DRF field-level validation of one ingredient entry
(`RecipeIngredientCreateSerializer`): `id` is a required
`PrimaryKeyRelatedField` over the ingredient catalog; `amount` is the
model-mapped integer field of `RecipeIngredients.amount`
(`MinValueValidator(1)` and the positive-small-integer upper bound
32767). -/
def fieldCheckEntry (catalog : List Ingredient) (e : RawIngredientEntry) :
    Except VErr (Nat × Int) :=
  match e.id with
  | none => .error (.fieldRequired "id")
  | some i =>
      if (catalog.find? (fun g => g.id = i)).isNone then .error .invalidPk
      else
        match e.amount with
        | none => .error (.fieldRequired "amount")
        | some a =>
            if a < 1 then .error .minValue
            else if 32767 < a then .error .maxValue
            else .ok (i, a)

/-- Field-level validation of the whole ingredient list; any failing entry
fails the submission. -/
def fieldCheckEntries (catalog : List Ingredient) :
    List RawIngredientEntry → Except VErr (List (Nat × Int))
  | [] => .ok []
  | e :: rest =>
      match fieldCheckEntry catalog e with
      | .error er => .error er
      | .ok v =>
          match fieldCheckEntries catalog rest with
          | .error er => .error er
          | .ok vs => .ok (v :: vs)

/-- DRF `to_internal_value` over the declared serializer fields:
ingredient entries, required `image`, non-blank `name` and `text`, and
`cooking_time` (model-mapped: required, min 1, max 32767). -/
def fieldStage (catalog : List Ingredient) (p : Payload) :
    Except VErr (List (Nat × Int)) :=
  match fieldCheckEntries catalog p.ingredients with
  | .error er => .error er
  | .ok ing =>
      match p.image with
      | none => .error (.fieldRequired "image")
      | some _ =>
          if p.name = "" then .error (.blankField "name")
          else if p.text = "" then .error (.blankField "text")
          else
            match p.cooking_time with
            | none => .error (.fieldRequired "cooking_time")
            | some t =>
                if t < 1 then .error .minValue
                else if 32767 < t then .error .maxValue
                else .ok ing

/-- Python's `int(x)` on a possibly-absent value: `int(None)` raises
`TypeError`. -/
def pyInt : Option Int → Except VErr Int
  | none => .error .internalTypeError
  | some n => .ok n

/-- Python truthiness of the raw `id` value: absent (`None`) and `0` are
falsy. -/
def idTruthy : Option Nat → Bool
  | none => false
  | some i => decide (i ≠ 0)

/-- Python truthiness of the raw `cooking_time` value: absent and `0` are
falsy. -/
def intTruthy : Option Int → Bool
  | none => false
  | some n => decide (n ≠ 0)

/-- The `for ingredient in ingredients:` loop of
`RecipeCreateSerializer.validate`, carrying `ingredients_set` (already
seen ids): `int(amount)`, the `not amount or not ingredient_id` check,
the `not amount > 0` check, and the duplicate-id check. -/
def checkIngredientLoop (seen : List Nat) :
    List RawIngredientEntry → Except VErr Unit
  | [] => .ok ()
  | e :: rest =>
      match pyInt e.amount with
      | .error er => .error er
      | .ok a =>
          if a = 0 ∨ idTruthy e.id = false then .error .needAmountAndId
          else if ¬ 0 < a then .error .amountNotPositive
          else
            match e.id with
            | some i =>
                if i ∈ seen then .error .duplicateIngredient
                else checkIngredientLoop (i :: seen) rest
            | none => .error .needAmountAndId

/-- Model of `RecipeCreateSerializer.validate`: the truthiness loop over
`("tags", "ingredients", "name", "text", "cooking_time")` on
`initial_data`, then the ingredient loop. -/
def serializerValidate (p : Payload) : Except VErr Unit :=
  if p.tags = [] then .error (.missingField "tags")
  else if p.ingredients = [] then .error (.missingField "ingredients")
  else if p.name = "" then .error (.missingField "name")
  else if p.text = "" then .error (.missingField "text")
  else if intTruthy p.cooking_time = false then
    .error (.missingField "cooking_time")
  else checkIngredientLoop [] p.ingredients

/-- The whole DRF validation pipeline (`is_valid`): field stage, then the
custom `validate`. -/
def fullValidate (catalog : List Ingredient) (p : Payload) :
    Except VErr (List (Nat × Int)) :=
  match fieldStage catalog p with
  | .error er => .error er
  | .ok ing =>
      match serializerValidate p with
      | .error er => .error er
      | .ok _ => .ok ing

/-- Subscripting helper: `Ingredient` model instances define no `__getitem__`, so subscripting
one (`ingredient["amount"]` after `ingredient = ingredient["id"]`) raises
`TypeError`. -/
def pyGetItemIngredient (_obj : Ingredient) (_key : String) :
    Except PyErr Int :=
  .error .typeError

/-- The loop of `RecipeCreateSerializer.create_recipe_ingredient`: each
iteration rebinds `ingredient` to the entry's resolved `Ingredient`
instance, then reads `ingredient["amount"]` from that instance. -/
def create_recipe_ingredient (recipeId : Nat) :
    List (Ingredient × Int) → Except PyErr (List RecipeIngredientRow)
  | [] => .ok []
  | (ingObj, _) :: rest =>
      match pyGetItemIngredient ingObj "amount" with
      | .error er => .error er
      | .ok a =>
          match create_recipe_ingredient recipeId rest with
          | .error er => .error er
          | .ok rows => .ok (⟨recipeId, ingObj.id, a⟩ :: rows)

/-- Validated data reaching `RecipeCreateSerializer.create`: tag pks and
(resolved `Ingredient` instance, amount) pairs. -/
structure ValidatedRecipe where
  tags : List Nat
  ingredients : List (Ingredient × Int)
deriving DecidableEq, Repr

/-- Fresh primary key for `Recipe.objects.create`. -/
def freshRecipeId (db : Db) : Nat :=
  db.recipes.foldl max 0 + 1

/-- Model of `RecipeCreateSerializer.create`: insert the `Recipe` row, attach the
tag set, then `create_recipe_ingredient` + `bulk_create`.  There is no
`transaction.atomic` wrapper in the source, so on failure the state
reached so far is returned as-is. -/
def serializer_create (db : Db) (v : ValidatedRecipe) :
    Except PyErr Nat × Db :=
  let rid := freshRecipeId db
  let db1 := { db with recipes := db.recipes ++ [rid] }
  let db2 := { db1 with
               recipe_tags := db1.recipe_tags ++ v.tags.map (fun t => (rid, t)) }
  match create_recipe_ingredient rid v.ingredients with
  | .error er => (.error er, db2)
  | .ok rows =>
      (.ok rid, { db2 with recipeingredients := db2.recipeingredients ++ rows })

/-- PrimaryKeyRelatedField resolution of a validated ingredient pk to its
catalog instance. -/
def resolveIngredient (catalog : List Ingredient) (i : Nat) : Ingredient :=
  (catalog.find? (fun g => g.id = i)).getD ⟨i, "", ""⟩

/-- Result of the full create endpoint. -/
inductive CreateResult
  | validationError (e : VErr)
  | pyError (e : PyErr)
  | created (id : Nat)
deriving DecidableEq, Repr

/-- The create endpoint: run the validation pipeline; only on success call
`RecipeCreateSerializer.create`.  A validation failure leaves the store
untouched. -/
def performRecipeCreate (db : Db) (catalog : List Ingredient) (p : Payload) :
    CreateResult × Db :=
  match fullValidate catalog p with
  | .error er => (.validationError er, db)
  | .ok ing =>
      let v : ValidatedRecipe :=
        { tags := p.tags
          ingredients := ing.map (fun x => (resolveIngredient catalog x.1, x.2)) }
      match serializer_create db v with
      | (.error er, db2) => (.pyError er, db2)
      | (.ok rid, db2) => (.created rid, db2)

/- ----------------------------------------------------------------- -/
/- Model-field constraints on `RecipeIngredients.amount` and
   `Recipe.cooking_time` (`backend/recipes/models.py` 92-99, 132-139). -/
/- ----------------------------------------------------------------- -/

/-- Model of `django.core.validators.MinValueValidator(limit)`. -/
def min_value_validator (limit v : Int) : Bool :=
  decide (limit ≤ v)

/-- A value storable in a `PositiveSmallIntegerField` column:
a non-negative small integer, at most 32767. -/
def positive_small_integer_storable (v : Int) : Bool :=
  decide (0 ≤ v) && decide (v ≤ 32767)

/-- Constraints of `RecipeIngredients.amount`: `PositiveSmallIntegerField` with
`MinValueValidator(1)`. -/
def amount_persistable (v : Int) : Bool :=
  min_value_validator 1 v && positive_small_integer_storable v

/-- Constraints of `Recipe.cooking_time`: `PositiveSmallIntegerField` with
`MinValueValidator(1)`. -/
def cooking_time_persistable (v : Int) : Bool :=
  min_value_validator 1 v && positive_small_integer_storable v

/- ----------------------------------------------------------------- -/
/- Helper lemmas.                                                     -/
/- ----------------------------------------------------------------- -/

/-- If field-level validation of a list of entries succeeds, it succeeds
on every member. -/
theorem fieldCheckEntries_ok_mem {catalog : List Ingredient}
    {l : List RawIngredientEntry} {vs : List (Nat × Int)}
    (h : fieldCheckEntries catalog l = .ok vs) :
    ∀ e ∈ l, ∃ v, fieldCheckEntry catalog e = .ok v := by
  induction l generalizing vs with
  | nil => simp
  | cons x rest ih =>
      unfold fieldCheckEntries at h
      cases hx : fieldCheckEntry catalog x with
      | error er => rw [hx] at h; cases h
      | ok v =>
          rw [hx] at h
          cases hr : fieldCheckEntries catalog rest with
          | error er => rw [hr] at h; cases h
          | ok vs' =>
              rw [hr] at h
              intro e he
              rcases List.mem_cons.mp he with rfl | hmem
              · exact ⟨v, hx⟩
              · exact ih hr e hmem

/-- A successful run of the `validate` ingredient loop implies that every
entry carries a present id not in the seen set, and that the ids of the
list are pairwise distinct. -/
theorem checkIngredientLoop_ok {seen : List Nat}
    {l : List RawIngredientEntry}
    (h : checkIngredientLoop seen l = .ok ()) :
    (∀ x ∈ l, ∃ n, x.id = some n ∧ n ∉ seen) ∧
      (l.map (fun e => e.id)).Nodup := by
  induction l generalizing seen with
  | nil => simp
  | cons e rest ih =>
      unfold checkIngredientLoop at h
      cases hamt : e.amount with
      | none => rw [hamt] at h; simp [pyInt] at h
      | some a =>
          rw [hamt] at h
          simp only [pyInt] at h
          by_cases hc1 : a = 0 ∨ idTruthy e.id = false
          · rw [if_pos hc1] at h; cases h
          · rw [if_neg hc1] at h
            by_cases hc2 : ¬ 0 < a
            · rw [if_pos hc2] at h; cases h
            · rw [if_neg hc2] at h
              cases hid : e.id with
              | none => simp [hid] at h
              | some i =>
                  rw [hid] at h
                  by_cases hc3 : i ∈ seen
                  · simp [hc3] at h
                  · simp only [hc3, if_false, if_neg] at h
                    obtain ⟨h1, h2⟩ := ih h
                    refine ⟨?_, ?_⟩
                    · intro x hx
                      rcases List.mem_cons.mp hx with rfl | hmem
                      · exact ⟨i, hid, hc3⟩
                      · obtain ⟨n, hn, hns⟩ := h1 x hmem
                        exact ⟨n, hn, fun hmem2 =>
                          hns (List.mem_cons.mpr (Or.inr hmem2))⟩
                    · rw [List.map_cons, List.nodup_cons]
                      refine ⟨?_, h2⟩
                      rw [hid]
                      intro hmem
                      obtain ⟨x, hx, hxid⟩ := List.mem_map.mp hmem
                      obtain ⟨n, hn, hns⟩ := h1 x hx
                      rw [hn] at hxid
                      have hni : n = i := Option.some.inj hxid
                      subst hni
                      exact hns (List.mem_cons_self n seen)

/-- A successful field stage implies a successful field-level validation
of the ingredient entries. -/
theorem fieldStage_ok_entries {catalog : List Ingredient} {p : Payload}
    {ing : List (Nat × Int)}
    (h : fieldStage catalog p = .ok ing) :
    fieldCheckEntries catalog p.ingredients = .ok ing := by
  unfold fieldStage at h
  cases hfe : fieldCheckEntries catalog p.ingredients with
  | error er => rw [hfe] at h; cases h
  | ok vs =>
      rw [hfe] at h
      cases himg : p.image with
      | none => simp [himg] at h
      | some img =>
          rw [himg] at h
          by_cases h1 : p.name = ""
          · simp [h1] at h
          · by_cases h2 : p.text = ""
            · simp [h1, h2] at h
            · cases hct : p.cooking_time with
              | none => simp [h1, h2, hct] at h
              | some t =>
                  by_cases h3 : t < 1
                  · simp [h1, h2, hct, h3] at h
                  · by_cases h4 : 32767 < t
                    · simp [h1, h2, hct, h3, h4] at h
                    · simp [h1, h2, hct, h3, h4] at h
                      rw [h]

/-- A successful custom `validate` implies a successful ingredient
loop. -/
theorem serializerValidate_ok_loop {p : Payload} {u : Unit}
    (h : serializerValidate p = .ok u) :
    checkIngredientLoop [] p.ingredients = .ok () := by
  unfold serializerValidate at h
  by_cases h1 : p.tags = []
  · simp [h1] at h
  · by_cases h2 : p.ingredients = []
    · simp [h1, h2] at h
    · by_cases h3 : p.name = ""
      · simp [h1, h2, h3] at h
      · by_cases h4 : p.text = ""
        · simp [h1, h2, h3, h4] at h
        · by_cases h5 : intTruthy p.cooking_time = false
          · simp [h1, h2, h3, h4, h5] at h
          · rw [if_neg h1, if_neg h2, if_neg h3, if_neg h4, if_neg h5] at h
            cases u
            exact h

/-- A successful full validation implies both a successful field stage
over the ingredient entries and a successful `validate` ingredient
loop. -/
theorem fullValidate_ok_parts {catalog : List Ingredient} {p : Payload}
    {ing : List (Nat × Int)}
    (h : fullValidate catalog p = .ok ing) :
    fieldCheckEntries catalog p.ingredients = .ok ing ∧
      checkIngredientLoop [] p.ingredients = .ok () := by
  unfold fullValidate at h
  cases hfs : fieldStage catalog p with
  | error er => rw [hfs] at h; cases h
  | ok ing' =>
      rw [hfs] at h
      cases hsv : serializerValidate p with
      | error er => rw [hsv] at h; cases h
      | ok u =>
          rw [hsv] at h
          cases h
          exact ⟨fieldStage_ok_entries hfs, serializerValidate_ok_loop hsv⟩

/-- An erring field-level check of one entry never produces the modelled
`int(None)` crash: every error branch of `fieldCheckEntry` is a DRF
validation error. -/
theorem fieldCheckEntry_error_not_crash {catalog : List Ingredient}
    {e : RawIngredientEntry} {er : VErr}
    (h : fieldCheckEntry catalog e = .error er) : er ≠ .internalTypeError := by
  unfold fieldCheckEntry at h
  cases hi : e.id with
  | none => simp [hi] at h; subst h; decide
  | some i =>
      rw [hi] at h
      by_cases hpk : (catalog.find? (fun g => g.id = i)).isNone
      · simp [hpk] at h; subst h; decide
      · simp only [hpk, if_false, ite_false, if_neg, not_false_eq_true] at h
        cases hamt : e.amount with
        | none => simp [hamt] at h; subst h; decide
        | some a =>
            rw [hamt] at h
            by_cases h1 : a < 1
            · simp [h1] at h; subst h; decide
            · by_cases h2 : 32767 < a
              · simp [h1, h2] at h; subst h; decide
              · simp [h1, h2] at h

/-- An erring field-level check of a list of entries never produces the
modelled crash either. -/
theorem fieldCheckEntries_error_not_crash {catalog : List Ingredient}
    {l : List RawIngredientEntry} {er : VErr}
    (h : fieldCheckEntries catalog l = .error er) :
    er ≠ .internalTypeError := by
  induction l with
  | nil => simp [fieldCheckEntries] at h
  | cons e rest ih =>
      unfold fieldCheckEntries at h
      cases hx : fieldCheckEntry catalog e with
      | error er2 =>
          rw [hx] at h
          have h2 : er2 = er := Except.error.inj h
          exact h2 ▸ fieldCheckEntry_error_not_crash hx
      | ok v =>
          rw [hx] at h
          cases hr : fieldCheckEntries catalog rest with
          | error er3 =>
              rw [hr] at h
              have h3 : er3 = er := Except.error.inj h
              subst h3
              exact ih hr
          | ok vs => rw [hr] at h; cases h

/-- A field-level check that accepts an entry certifies a present id
resolving into the catalog and a present amount of at least 1. -/
theorem fieldCheckEntry_ok_shape {catalog : List Ingredient}
    {e : RawIngredientEntry} {v : Nat × Int}
    (h : fieldCheckEntry catalog e = .ok v) :
    ∃ i a, e.id = some i ∧ e.amount = some a ∧
      (∃ g ∈ catalog, g.id = i) ∧ 1 ≤ a := by
  unfold fieldCheckEntry at h
  cases hi : e.id with
  | none => simp [hi] at h
  | some i =>
      rw [hi] at h
      by_cases hpk : (catalog.find? (fun g => g.id = i)).isNone
      · simp [hpk] at h
      · simp only [hpk, if_false, ite_false, if_neg, not_false_eq_true] at h
        cases hamt : e.amount with
        | none => simp [hamt] at h
        | some a =>
            rw [hamt] at h
            by_cases h1 : a < 1
            · simp [h1] at h
            · by_cases h2 : 32767 < a
              · simp [h1, h2] at h
              · refine ⟨i, a, rfl, rfl, ?_, by omega⟩
                cases hfind : catalog.find? (fun g => g.id = i) with
                | none => rw [hfind] at hpk; simp at hpk
                | some g =>
                    have hg := List.find?_some hfind
                    have hmem := List.mem_of_find?_eq_some hfind
                    exact ⟨g, hmem, by simpa using hg⟩

/-- Over entries whose ids are present and non-zero and whose amounts are
present and positive, the `validate` ingredient loop either succeeds or
stops exactly at the duplicate-id error — no other error is reachable. -/
theorem checkIngredientLoop_valid (seen : List Nat)
    (l : List RawIngredientEntry)
    (hval : ∀ x ∈ l, (∃ i, x.id = some i ∧ i ≠ 0) ∧
            ∃ a, x.amount = some a ∧ 1 ≤ a) :
    checkIngredientLoop seen l = .ok () ∨
      checkIngredientLoop seen l = .error .duplicateIngredient := by
  induction l generalizing seen with
  | nil => left; rfl
  | cons e rest ih =>
      obtain ⟨⟨i, hid, hi0⟩, ⟨a, hamt, ha⟩⟩ :=
        hval e (List.mem_cons_self e rest)
      have hc1 : ¬ (a = 0 ∨ idTruthy e.id = false) := by
        simp [idTruthy, hid, hi0]
        omega
      have hc2 : ¬ ¬ (0 : Int) < a := by omega
      have hstep : checkIngredientLoop seen (e :: rest) =
          if i ∈ seen then .error .duplicateIngredient
          else checkIngredientLoop (i :: seen) rest := by
        conv_lhs => rw [checkIngredientLoop]
        rw [hamt]
        simp only [pyInt]
        rw [if_neg hc1, if_neg hc2, hid]
      by_cases hmem : i ∈ seen
      · right; rw [hstep, if_pos hmem]
      · rw [hstep, if_neg hmem]
        exact ih (i :: seen) (fun x hx => hval x (List.mem_cons_of_mem e hx))

/-- A successful field stage certifies the non-blank `name` and `text`
fields and a present `cooking_time` of at least 1. -/
theorem fieldStage_ok_fields {catalog : List Ingredient} {p : Payload}
    {ing : List (Nat × Int)}
    (h : fieldStage catalog p = .ok ing) :
    p.name ≠ "" ∧ p.text ≠ "" ∧ ∃ t, p.cooking_time = some t ∧ 1 ≤ t := by
  unfold fieldStage at h
  cases hfe : fieldCheckEntries catalog p.ingredients with
  | error er => rw [hfe] at h; cases h
  | ok vs =>
      rw [hfe] at h
      cases himg : p.image with
      | none => simp [himg] at h
      | some img =>
          rw [himg] at h
          by_cases h1 : p.name = ""
          · simp [h1] at h
          · by_cases h2 : p.text = ""
            · simp [h1, h2] at h
            · cases hct : p.cooking_time with
              | none => simp [h1, h2, hct] at h
              | some t =>
                  by_cases h3 : t < 1
                  · simp [h1, h2, hct, h3] at h
                  · exact ⟨h1, h2, t, rfl, by omega⟩

/- ----------------------------------------------------------------- -/
/- Concrete fixtures.                                                 -/
/- ----------------------------------------------------------------- -/

/-- Store with two distinct catalog rows that share a name but differ in
measurement unit (allowed: only the (name, unit) pair is unique), each
used by one of the two recipes in user 1's cart. -/
def dbTwoUnits : Db :=
  { users := [1], recipes := [10, 11],
    ingredients := [⟨1, "sugar", "g"⟩, ⟨2, "sugar", "cups"⟩],
    recipeingredients := [⟨10, 1, 100⟩, ⟨11, 2, 2⟩],
    recipe_tags := [], favorite := [],
    shoppingcart := [(1, 10), (1, 11)], subscriptions := [] }

/-- Store with one recipe favorited by and in the cart of user 1. -/
def dbViewer : Db :=
  { users := [1, 2], recipes := [10], ingredients := [],
    recipeingredients := [], recipe_tags := [],
    favorite := [(1, 10)], shoppingcart := [(1, 10)], subscriptions := [] }

/-- Store with two users, no subscriptions, empty cart, one catalog
ingredient. -/
def dbBase : Db :=
  { users := [1, 2], recipes := [], ingredients := [⟨1, "flour", "g"⟩],
    recipeingredients := [], recipe_tags := [], favorite := [],
    shoppingcart := [], subscriptions := [] }

/-- Store identical to `dbBase` but with user 1 subscribed to user 2. -/
def dbSubscribed : Db :=
  { dbBase with subscriptions := [(1, 2)] }

/-- Ingredient catalog used by the validation fixtures. -/
def catalogTwo : List Ingredient := [⟨1, "flour", "g"⟩, ⟨5, "salt", "g"⟩]

/-- Payload with a repeated ingredient id whose first entry has a zero
amount. -/
def payloadDupZero : Payload :=
  { tags := [1], ingredients := [⟨some 1, some 0⟩, ⟨some 1, some 1⟩],
    image := some "img", name := "pie", text := "mix",
    cooking_time := some 10 }

/-- Payload with a repeated ingredient id and otherwise valid entries. -/
def payloadDupValid : Payload :=
  { payloadDupZero with
    ingredients := [⟨some 1, some 3⟩, ⟨some 1, some 4⟩] }

/-- Payload with a single ingredient entry whose amount key is absent. -/
def payloadNoAmount : Payload :=
  { payloadDupZero with ingredients := [⟨some 1, none⟩] }

/-- Validated data for one recipe with one ingredient, as it reaches
`RecipeCreateSerializer.create` after a successful validation. -/
def validatedPie : ValidatedRecipe :=
  { tags := [7], ingredients := [(⟨1, "flour", "g"⟩, 200)] }

/- ----------------------------------------------------------------- -/
/- Claim theorems.                                                    -/
/- ----------------------------------------------------------------- -/

/-- C1: the shopping-list export does NOT group by ingredient identity
(name + measurement_unit): it keys `shopping_result` by name alone, so a
cart holding 100 g of catalog ingredient 1 ("sugar", "g") and 2 cups of
the distinct catalog ingredient 2 ("sugar", "cups") renders a single
merged line "1. Sugar: 102 g" instead of one line per identity. -/
theorem download_merges_distinct_ingredient_identities :
    dbTwoUnits.ingredients.map (fun i => (i.name, i.measurement_unit)) =
      [("sugar", "g"), ("sugar", "cups")] ∧
    cartRows dbTwoUnits 1 = [("sugar", "g", 100), ("sugar", "cups", 2)] ∧
    shopping_result (cartRows dbTwoUnits 1) = [("sugar", "g", 102)] ∧
    (download_shopping_cart dbTwoUnits 1).body = "1. Sugar: 102 g\n" :=
  ⟨rfl, rfl, rfl, rfl⟩

/-- C2: for an authenticated viewer the queryset annotates each recipe
with boolean `is_favorited` / `is_in_shopping_cart` attributes, and the
serializer then calls them (`obj.is_favorited(user)`); since the `Recipe`
model defines no such methods, calling the annotated booleans raises
`TypeError` instead of returning the booleans the claim describes. -/
theorem recipe_flag_serializer_raises_for_authenticated :
    (1, 10) ∈ dbViewer.favorite ∧ (1, 10) ∈ dbViewer.shoppingcart ∧
    get_queryset (some 1) dbViewer = [⟨10, some true, some true⟩] ∧
    get_is_favorited (some 1) ⟨10, some true, some true⟩ =
      .error .typeError ∧
    get_is_in_shopping_cart (some 1) ⟨10, some true, some true⟩ =
      .error .typeError :=
  ⟨by decide, by decide, rfl, rfl, rfl⟩

/-- C3: recipe create is not all-or-nothing: `create_recipe_ingredient`
raises `TypeError` (subscripting the resolved `Ingredient` instance), and
with no `transaction.atomic` wrapper the already-inserted `Recipe` row and
its tag links survive the failure, leaving the store changed. -/
theorem create_failure_keeps_changed_state :
    serializer_create dbBase validatedPie =
      (.error .typeError,
       { dbBase with recipes := [1], recipe_tags := [(1, 7)] }) ∧
    ({ dbBase with recipes := [1], recipe_tags := [(1, 7)] } : Db) ≠ dbBase :=
  ⟨rfl, by decide⟩

/-- C4: for an existing author, subscribe answers the self-subscription
error when the target is the caller, the conflict error when the
(user, author) row already exists — both leaving the subscription table
unchanged — and otherwise creates exactly the new (user, author) row. -/
theorem subscribe_spec (db : Db) (u a : Nat) (ha : a ∈ db.users) :
    (a = u → subscribe db u a = (.selfError, db)) ∧
    (a ≠ u → (u, a) ∈ db.subscriptions →
       subscribe db u a = (.conflict, db)) ∧
    (a ≠ u → (u, a) ∉ db.subscriptions →
       subscribe db u a =
         (.created,
          { db with subscriptions := db.subscriptions ++ [(u, a)] })) := by
  refine ⟨?_, ?_, ?_⟩
  · intro hself
    unfold subscribe
    rw [if_pos ha, if_pos hself]
  · intro hne hmem
    unfold subscribe
    rw [if_pos ha, if_neg hne, if_pos hmem]
  · intro hne hnot
    unfold subscribe
    rw [if_pos ha, if_neg hne, if_neg hnot]

/-- Witness for C4: in `dbBase` (users 1 and 2, no subscriptions),
subscribing user 1 to author 2 creates the (1, 2) row. -/
theorem subscribe_spec_witness :
    2 ∈ dbBase.users ∧
    subscribe dbBase 1 2 =
      (.created, { dbBase with subscriptions := [(1, 2)] }) :=
  ⟨by decide,
   (subscribe_spec dbBase 1 2 (by decide)).2.2 (by decide) (by decide)⟩

/-- C5 counterexample: with users 1 and 2 present and no subscription
rows, unsubscribing answers HTTP 400 (not the 404 the claim requires) and
leaves the store unchanged. -/
theorem unsubscribe_missing_answers_400 :
    (1, 2) ∉ dbBase.subscriptions ∧
    delete_subscribe dbBase 1 2 = (400, dbBase) ∧ (400 : Nat) ≠ 404 :=
  ⟨by decide, by decide, by decide⟩

/-- C5 (amended): for an existing author, unsubscribe with no existing
(user, author) row answers HTTP 400 leaving the store unchanged; with an
existing row it answers 204 and the row is gone. -/
theorem delete_subscribe_spec (db : Db) (u a : Nat) (ha : a ∈ db.users) :
    ((u, a) ∉ db.subscriptions → delete_subscribe db u a = (400, db)) ∧
    ((u, a) ∈ db.subscriptions →
       (delete_subscribe db u a).1 = 204 ∧
       (u, a) ∉ (delete_subscribe db u a).2.subscriptions) := by
  constructor
  · intro hnot
    unfold delete_subscribe
    rw [if_pos ha, if_pos ?hc]
    case hc =>
      rw [List.isEmpty_iff, List.filter_eq_nil_iff]
      intro s hs
      simp only [decide_eq_true_eq]
      intro heq
      exact hnot (heq ▸ hs)
  · intro hmem
    have hne : (db.subscriptions.filter
        (fun s => s = (u, a))).isEmpty = false := by
      rw [Bool.eq_false_iff]
      intro hemp
      rw [List.isEmpty_iff, List.filter_eq_nil_iff] at hemp
      exact hemp (u, a) hmem (by simp)
    unfold delete_subscribe
    rw [if_pos ha, if_neg (by rw [hne]; exact Bool.false_ne_true)]
    refine ⟨rfl, ?_⟩
    intro hmem2
    have := (List.mem_filter.mp hmem2).2
    simp at this

/-- Witness for C5: in `dbSubscribed` the (1, 2) row exists; unsubscribe
answers 204 and removes it, and in `dbBase` it would have answered 400. -/
theorem delete_subscribe_spec_witness :
    2 ∈ dbSubscribed.users ∧ (1, 2) ∈ dbSubscribed.subscriptions ∧
    (delete_subscribe dbSubscribed 1 2).1 = 204 ∧
    (1, 2) ∉ (delete_subscribe dbSubscribed 1 2).2.subscriptions :=
  ⟨by decide, by decide,
   ((delete_subscribe_spec dbSubscribed 1 2 (by decide)).2 (by decide)).1,
   ((delete_subscribe_spec dbSubscribed 1 2 (by decide)).2 (by decide)).2⟩

/-- C9 counterexample: the Content-Disposition header of the export is
`attachment; filename=Список_покупок.txt`, not the claimed
`attachment; filename="shopping_list.txt"`. -/
theorem download_disposition_not_shopping_list :
    (download_shopping_cart dbBase 1).content_disposition ≠
      "attachment; filename=\"shopping_list.txt\"" ∧
    (download_shopping_cart dbBase 1).content_type = "text/plain" :=
  ⟨by decide, rfl⟩

/-- C9 (amended): every export response carries content type `text/plain`
and the Content-Disposition header
`attachment; filename=Список_покупок.txt` (unquoted Russian filename). -/
theorem download_headers (db : Db) (u : Nat) :
    (download_shopping_cart db u).content_type = "text/plain" ∧
    (download_shopping_cart db u).content_disposition =
      "attachment; filename=Список_покупок.txt" :=
  ⟨rfl, rfl⟩

/-- C10: a value passes the persisted-field constraints of
`RecipeIngredients.amount` and of `Recipe.cooking_time`
(`MinValueValidator(1)` plus the positive-small-integer column range)
exactly when it lies between 1 and 32767 inclusive. -/
theorem amount_cooking_time_range (v : Int) :
    (amount_persistable v = true ↔ 1 ≤ v ∧ v ≤ 32767) ∧
    (cooking_time_persistable v = true ↔ 1 ≤ v ∧ v ≤ 32767) := by
  unfold amount_persistable cooking_time_persistable min_value_validator
    positive_small_integer_storable
  constructor <;>
    · simp only [Bool.and_eq_true, decide_eq_true_eq]
      omega

/-- C6: a payload containing an ingredient entry with an absent amount,
a non-positive amount, or an absent id never passes the validation
pipeline, the rejection is a genuine validation error — never the
modelled `int(None)` `TypeError` crash (`internalTypeError`) — and the
create endpoint leaves the store unchanged on it. -/
theorem recipe_create_rejects_invalid_ingredient
    (db : Db) (catalog : List Ingredient) (p : Payload)
    (e : RawIngredientEntry) (he : e ∈ p.ingredients)
    (hbad : e.amount = none ∨ (∃ a, e.amount = some a ∧ a ≤ 0) ∨
            e.id = none) :
    (fullValidate catalog p).isOk = false ∧
    fullValidate catalog p ≠ .error .internalTypeError ∧
    (performRecipeCreate db catalog p).2 = db := by
  have hvnotok : ∀ v, fieldCheckEntry catalog e ≠ .ok v := by
    intro v hv
    unfold fieldCheckEntry at hv
    rcases hbad with hnone | ⟨a, ha, hle⟩ | hid
    · cases hi : e.id with
      | none => simp [hi] at hv
      | some i =>
          rw [hi] at hv
          by_cases hpk : (catalog.find? (fun g => g.id = i)).isNone
          · simp [hpk] at hv
          · simp only [hpk, if_false, ite_false, if_neg,
              not_false_eq_true] at hv
            simp [hnone] at hv
    · cases hi : e.id with
      | none => simp [hi] at hv
      | some i =>
          rw [hi] at hv
          by_cases hpk : (catalog.find? (fun g => g.id = i)).isNone
          · simp [hpk] at hv
          · simp [hpk, ha, show a < 1 by omega] at hv
    · simp [hid] at hv
  have hfeerr : ∃ er, fieldCheckEntries catalog p.ingredients = .error er := by
    cases hfe0 : fieldCheckEntries catalog p.ingredients with
    | error er => exact ⟨er, rfl⟩
    | ok vs =>
        obtain ⟨v, hv⟩ := fieldCheckEntries_ok_mem hfe0 e he
        exact absurd hv (hvnotok v)
  obtain ⟨er, her⟩ := hfeerr
  have hercrash : er ≠ .internalTypeError :=
    fieldCheckEntries_error_not_crash her
  have hfs : fieldStage catalog p = .error er := by
    unfold fieldStage; rw [her]
  have hfv : fullValidate catalog p = .error er := by
    unfold fullValidate; rw [hfs]
  refine ⟨by rw [hfv]; rfl, ?_, ?_⟩
  · rw [hfv]
    intro hcon
    exact hercrash (Except.error.inj hcon)
  · unfold performRecipeCreate
    rw [hfv]

/-- Witness for C6: the concrete payload whose only ingredient entry has
no amount key is rejected with a validation error (not the crash) and
creates nothing. -/
theorem recipe_create_rejects_invalid_ingredient_witness :
    ((⟨some 1, none⟩ : RawIngredientEntry) ∈ payloadNoAmount.ingredients) ∧
    (fullValidate catalogTwo payloadNoAmount).isOk = false ∧
    fullValidate catalogTwo payloadNoAmount ≠ .error .internalTypeError ∧
    (performRecipeCreate dbBase catalogTwo payloadNoAmount).2 = dbBase :=
  ⟨by decide,
   (recipe_create_rejects_invalid_ingredient dbBase catalogTwo
      payloadNoAmount ⟨some 1, none⟩ (by decide) (Or.inl rfl)).1,
   (recipe_create_rejects_invalid_ingredient dbBase catalogTwo
      payloadNoAmount ⟨some 1, none⟩ (by decide) (Or.inl rfl)).2.1,
   (recipe_create_rejects_invalid_ingredient dbBase catalogTwo
      payloadNoAmount ⟨some 1, none⟩ (by decide) (Or.inl rfl)).2.2⟩

/-- C7 counterexample: a payload repeating ingredient id 1 whose first
entry has amount 0 is rejected with the min-value error of the field
layer, not with the duplicate-ingredient error the claim promises for
every such payload regardless of amounts. -/
theorem duplicate_with_zero_amount_not_duplicate_error :
    payloadDupZero.ingredients.map (fun e => e.id) = [some 1, some 1] ∧
    fullValidate catalogTwo payloadDupZero = .error .minValue ∧
    fullValidate catalogTwo payloadDupZero ≠ .error .duplicateIngredient := by
  refine ⟨rfl, rfl, ?_⟩
  intro hcon
  have h0 : fullValidate catalogTwo payloadDupZero = .error .minValue := rfl
  rw [h0] at hcon
  simp at hcon

/-- C7 (amended): every payload in which some ingredient id occurs in two
or more entries fails validation; moreover, whenever the tags list is
non-empty, the catalog's primary keys are non-zero, and the field stage
accepts the payload, the rejection is precisely the duplicate-ingredient
error (otherwise the earlier field-level error is raised instead). -/
theorem recipe_create_rejects_duplicate_ids
    (catalog : List Ingredient) (p : Payload) (i j n : Nat)
    (hij : i < j) (hj : j < p.ingredients.length)
    (hi : (p.ingredients.get ⟨i, Nat.lt_trans hij hj⟩).id = some n)
    (hjid : (p.ingredients.get ⟨j, hj⟩).id = some n) :
    (fullValidate catalog p).isOk = false ∧
    (p.tags ≠ [] → (∀ g ∈ catalog, g.id ≠ 0) →
      ∀ ing, fieldStage catalog p = .ok ing →
        fullValidate catalog p = .error .duplicateIngredient) := by
  have hnotok : checkIngredientLoop [] p.ingredients ≠ .ok () := by
    intro hloop
    have hnd := (checkIngredientLoop_ok hloop).2
    have hinj := List.nodup_iff_injective_get.mp hnd
    have hi2 : i < (p.ingredients.map (fun e => e.id)).length := by
      rw [List.length_map]; exact Nat.lt_trans hij hj
    have hj2 : j < (p.ingredients.map (fun e => e.id)).length := by
      rw [List.length_map]; exact hj
    have hgi : (p.ingredients.map (fun e => e.id)).get ⟨i, hi2⟩ = some n := by
      rw [List.get_map]; exact hi
    have hgj : (p.ingredients.map (fun e => e.id)).get ⟨j, hj2⟩ = some n := by
      rw [List.get_map]; exact hjid
    have heq := hinj (hgi.trans hgj.symm)
    have hij2 : i = j := congrArg Fin.val heq
    omega
  constructor
  · cases hfv : fullValidate catalog p with
    | error er => rfl
    | ok ing => exact absurd (fullValidate_ok_parts hfv).2 hnotok
  · intro htags hcat ing hfs
    have hentries := fieldStage_ok_entries hfs
    have hval : ∀ x ∈ p.ingredients,
        (∃ i2, x.id = some i2 ∧ i2 ≠ 0) ∧
        ∃ a, x.amount = some a ∧ 1 ≤ a := by
      intro x hx
      obtain ⟨v, hv⟩ := fieldCheckEntries_ok_mem hentries x hx
      obtain ⟨i2, a, hid2, hamt2, ⟨g, hgmem, hgid⟩, ha⟩ :=
        fieldCheckEntry_ok_shape hv
      exact ⟨⟨i2, hid2, hgid ▸ hcat g hgmem⟩, ⟨a, hamt2, ha⟩⟩
    have hloopdup : checkIngredientLoop [] p.ingredients =
        .error .duplicateIngredient := by
      rcases checkIngredientLoop_valid [] p.ingredients hval with hok | hdup2
      · exact absurd hok hnotok
      · exact hdup2
    obtain ⟨hname, htext, t, hctEq, ht⟩ := fieldStage_ok_fields hfs
    have hingne : p.ingredients ≠ [] := by
      intro hemp
      rw [hemp] at hj
      exact Nat.not_lt_zero j hj
    have hctTruthy : ¬ (intTruthy p.cooking_time = false) := by
      rw [hctEq]
      simp [intTruthy]
      omega
    have hsv : serializerValidate p = .error .duplicateIngredient := by
      unfold serializerValidate
      rw [if_neg htags, if_neg hingne, if_neg hname, if_neg htext,
          if_neg hctTruthy]
      exact hloopdup
    unfold fullValidate
    rw [hfs, hsv]

/-- Witness for C7: the concrete payload with two otherwise-valid entries
both naming ingredient 1 passes the field stage and then fails validation
with exactly the duplicate-ingredient error. -/
theorem recipe_create_rejects_duplicate_ids_witness :
    payloadDupValid.ingredients.map (fun e => e.id) = [some 1, some 1] ∧
    fieldStage catalogTwo payloadDupValid = .ok [(1, 3), (1, 4)] ∧
    (fullValidate catalogTwo payloadDupValid).isOk = false ∧
    fullValidate catalogTwo payloadDupValid = .error .duplicateIngredient :=
  ⟨rfl, rfl,
   (recipe_create_rejects_duplicate_ids catalogTwo payloadDupValid 0 1 1
      (by decide) (by decide) (by decide) (by decide)).1,
   (recipe_create_rejects_duplicate_ids catalogTwo payloadDupValid 0 1 1
      (by decide) (by decide) (by decide) (by decide)).2
     (by decide) (by decide) [(1, 3), (1, 4)] rfl⟩

/-- C8: when the user's shopping cart holds no rows, the export body is
the empty string and the response is a plain 200, not an error. -/
theorem empty_cart_empty_export (db : Db) (u : Nat)
    (h : db.shoppingcart.filter (fun s => s.1 = u) = []) :
    (download_shopping_cart db u).body = "" ∧
    (download_shopping_cart db u).status = 200 := by
  have hrows : cartRows db u = [] := by
    unfold cartRows
    have hf : db.recipeingredients.filter
        (fun ri => decide ((u, ri.recipe) ∈ db.shoppingcart)) = [] := by
      rw [List.filter_eq_nil_iff]
      intro ri _hri
      simp only [decide_eq_true_eq]
      intro hmem
      have hin : (u, ri.recipe) ∈
          db.shoppingcart.filter (fun s => s.1 = u) :=
        List.mem_filter.mpr ⟨hmem, by simp⟩
      rw [h] at hin
      cases hin
    rw [hf]
    rfl
  constructor
  · show renderShoppingList (shopping_result (cartRows db u)) = ""
    rw [hrows]
    rfl
  · rfl

/-- Witness for C8: user 1's cart in `dbBase` is empty and the export is
the empty 200 document. -/
theorem empty_cart_empty_export_witness :
    dbBase.shoppingcart.filter (fun s => s.1 = 1) = [] ∧
    (download_shopping_cart dbBase 1).body = "" ∧
    (download_shopping_cart dbBase 1).status = 200 :=
  ⟨rfl, (empty_cart_empty_export dbBase 1 rfl).1,
   (empty_cart_empty_export dbBase 1 rfl).2⟩

end Foodgram
